import Mathlib

/-!
Shallow embedding of `src/python/statement.py` (theatrical players billing).

The Python module computes a billing statement for an invoice of theatre
performances: each performance references a play in a catalog, a billing
strategy is selected from the play's genre tag, and per-performance amounts
(integer cents) and volume credits are accumulated into a `Statement` value,
which two renderers turn into text or HTML.

Python `int` is unbounded, so audiences, amounts and credits are embedded as
`Int`.  The catalog (`AllPlays = dict[str, Play]`) is embedded as a partial
map `String → Option Play`; a failed dict lookup (Python `KeyError`) and the
`ValueError` raised on an unknown genre tag become the two constructors of
`Err`, and fallible code returns `Except Err _`.
-/

namespace TheatricalPlayers

/-- `Performance` (TypedDict): `{playID: str, audience: int}`. -/
structure Performance where
  playID : String
  audience : Int
deriving DecidableEq, Repr

/-- `Invoice` (TypedDict): `{customer: str, performances: list[Performance]}`. -/
structure Invoice where
  customer : String
  performances : List Performance
deriving DecidableEq, Repr

/-- `Play` (TypedDict): `{name: str, type: str}`. -/
structure Play where
  name : String
  type : String
deriving DecidableEq, Repr

/-- `AllPlays = dict[str, Play]`: a dict is a partial map with unique keys. -/
def AllPlays : Type := String → Option Play

/-- `StatementLine` dataclass: one line on the invoice. -/
structure StatementLine where
  play_name : String
  amount : Int
  seats : Int
deriving DecidableEq, Repr

/-- `Statement` dataclass: the final statement. -/
structure Statement where
  customer : String
  statement_lines : List StatementLine
  credits : Int
deriving DecidableEq, Repr

/-- `Statement.total` property: `sum(s.amount for s in self.statement_lines)`. -/
def Statement.total (st : Statement) : Int :=
  (st.statement_lines.map StatementLine.amount).sum

/-- The two exceptions `calculate` can raise: `KeyError` from the catalog
dict lookup (unknown playID) and `ValueError("unknown type: ...")` from
`billing_strategy` (unknown genre tag). -/
inductive Err where
  | UnknownPlay (playID : String)
  | UnknownGenre (tag : String)
deriving DecidableEq, Repr

/-- `BillingStrategy.credits`: `max(self.audience - 30, 0)` (the base-class
rule, used unchanged by `TragedyBilling`). -/
def base_credits (a : Int) : Int := max (a - 30) 0

/-- `TragedyBilling.amount`: `40000`, plus `1000 * (audience - 30)` when
`audience > 30`. -/
def tragedy_amount (a : Int) : Int :=
  40000 + (if a > 30 then 1000 * (a - 30) else 0)

/-- `TragedyBilling` inherits `credits` from `BillingStrategy`. -/
def tragedy_credits (a : Int) : Int := base_credits a

/-- `ComedyBilling.amount`: `30000 + 300 * audience`, plus
`10000 + 500 * (audience - 20)` when `audience > 20`. -/
def comedy_amount (a : Int) : Int :=
  (30000 + 300 * a) + (if a > 20 then 10000 + 500 * (a - 20) else 0)

/-- `ComedyBilling.credits`: `super().credits() + self.audience // 5`.
Python `//` is floor division, i.e. `Int.fdiv`. -/
def comedy_credits (a : Int) : Int := base_credits a + Int.fdiv a 5

/-- A constructed `BillingStrategy` object: the concrete subclass together
with the `play` and `perf` it was constructed with. -/
inductive Billing where
  | tragedy (play : Play) (perf : Performance)
  | comedy (play : Play) (perf : Performance)
deriving DecidableEq, Repr

/-- The `_play` attribute. -/
def Billing.play : Billing → Play
  | .tragedy p _ => p
  | .comedy p _ => p

/-- The `_perf` attribute. -/
def Billing.perf : Billing → Performance
  | .tragedy _ q => q
  | .comedy _ q => q

/-- `BillingStrategy.name` property: `self._play["name"]`. -/
def Billing.name (b : Billing) : String := b.play.name

/-- `BillingStrategy.audience` property: `self._perf["audience"]`. -/
def Billing.audience (b : Billing) : Int := b.perf.audience

/-- Virtual dispatch of `amount` on the concrete subclass. -/
def Billing.amount : Billing → Int
  | .tragedy _ q => tragedy_amount q.audience
  | .comedy _ q => comedy_amount q.audience

/-- Virtual dispatch of `credits` on the concrete subclass. -/
def Billing.credits : Billing → Int
  | .tragedy _ q => tragedy_credits q.audience
  | .comedy _ q => comedy_credits q.audience

/-- `BillingStrategy.statement_line`:
`StatementLine(self.name, self.amount(), self.audience)`. -/
def Billing.statement_line (b : Billing) : StatementLine :=
  ⟨b.name, b.amount, b.audience⟩

/-- `billing_strategy(plays, perf)`: looks up
`plays[perf["playID"]]["type"]` (a missing key raises `KeyError`, embedded
as `Err.UnknownPlay`) and matches it, raising
`ValueError(f"unknown type: ...")` (embedded as `Err.UnknownGenre`) on an
unrecognized tag. -/
def billing_strategy (plays : AllPlays) (perf : Performance) :
    Except Err Billing :=
  match plays perf.playID with
  | none => .error (.UnknownPlay perf.playID)
  | some play =>
    if play.type = "tragedy" then .ok (.tragedy play perf)
    else if play.type = "comedy" then .ok (.comedy play perf)
    else .error (.UnknownGenre play.type)

/-- `calculate(invoice, plays)`: `functools.reduce` over the generator
`(billing_strategy(plays, perf) for perf in invoice["performances"])` with
initial accumulator `([], 0)`, appending `strategy.statement_line()` and
adding `strategy.credits()` at each step.  The generator is consumed
strictly left-to-right by `reduce`, so the first raising performance aborts
the whole computation, which is exactly `foldlM` in the `Except` monad. -/
def calculate (invoice : Invoice) (plays : AllPlays) : Except Err Statement := do
  let acc ← invoice.performances.foldlM
    (fun (total : List StatementLine × Int) perf => do
      let strategy ← billing_strategy plays perf
      pure (total.1 ++ [strategy.statement_line], total.2 + strategy.credits))
    (([] : List StatementLine), (0 : Int))
  pure ⟨invoice.customer, acc.1, acc.2⟩

/-- Digit grouping used by Python's `,` format flag: a comma every three
digits, counted from the right.  `group_aux` walks the reversed digit list
with a countdown to the next comma. -/
def group_aux : List Char → Nat → List Char
  | [], _ => []
  | c :: cs, 0 => ',' :: c :: group_aux cs 2
  | c :: cs, Nat.succ n => c :: group_aux cs n

/-- Insert thousands separators into a digit string. -/
def group_digits (s : String) : String :=
  String.mk ((group_aux s.data.reverse 3).reverse)

/-- Two-digit rendering of the cent part (`00` .. `99`). -/
def two_digits (n : Nat) : String :=
  if n < 10 then "0" ++ toString n else toString n

/-- `format_as_dollars(cents)`: the Python source renders
`f"${cents/100:0,.2f}"`, dividing by 100 as an IEEE-754 double and
formatting it with two decimals and thousands separators.  This embedding
renders the same dollars-and-cents string by exact integer arithmetic
(quotient/remainder by 100); the two agree wherever the double rounding of
`cents/100` is below a half-cent, i.e. for every |cents| below about 2^52,
but the float detour itself is outside the embedding. -/
def format_as_dollars (cents : Int) : String :=
  let m := cents.natAbs
  "$" ++ (if cents < 0 then "-" else "")
    ++ group_digits (toString (m / 100)) ++ "." ++ two_digits (m % 100)

/-- `render_as_text(statement)`: header line, one line per statement line,
total and credits footer, accumulated by string concatenation. -/
def render_as_text (st : Statement) : String :=
  let result := "Statement for " ++ st.customer ++ "\n"
  let result := st.statement_lines.foldl
    (fun r line =>
      r ++ (" " ++ line.play_name ++ ": " ++ format_as_dollars line.amount
        ++ " (" ++ toString line.seats ++ " seats)\n"))
    result
  let result := result ++ ("Amount owed is " ++ format_as_dollars st.total ++ "\n")
  result ++ ("You earned " ++ toString st.credits ++ " credits\n")

/-- `render_as_html(statement)`: HTML table, one `<tr>` per statement line.
Note the loop body interpolates `format_as_dollars(statement.total)` — the
whole statement's total — into each row's cost cell, not the row's own
`line.amount`. -/
def render_as_html (st : Statement) : String :=
  let result := "<h1>Statement for " ++ st.customer ++ "</h1>\n"
  let result := result ++ "<table>\n"
  let result := result ++ "<tr><th>play</th><th>seats</th><th>cost</th></tr>\n"
  let result := st.statement_lines.foldl
    (fun r line =>
      r ++ (" <tr><td>" ++ line.play_name ++ "</td><td>" ++ toString line.seats ++ "</td>")
        ++ ("<td>" ++ format_as_dollars st.total ++ "</td></tr>\n"))
    result
  let result := result ++ "</table>\n"
  let result := result ++ ("<p>Amount owed is <em>" ++ format_as_dollars st.total ++ "</em></p>\n")
  result ++ ("<p>You earned <em>" ++ toString st.credits ++ "</em> credits</p>")

/-- `statement(invoice, plays)` composes `calculate` with the text
renderer; the `Except` embedding threads the possible exception through. -/
def statement (invoice : Invoice) (plays : AllPlays) : Except Err String :=
  (calculate invoice plays).map render_as_text

/-- `html_statement(invoice, plays)` composes `calculate` with the HTML
renderer. -/
def html_statement (invoice : Invoice) (plays : AllPlays) : Except Err String :=
  (calculate invoice plays).map render_as_html

/-! ### Derived vocabulary used to state the claims -/

/-- A genre tag is known when `billing_strategy`'s match has a case for it:
exactly `"tragedy"` and `"comedy"`. -/
def known_genre (t : String) : Bool :=
  t == "tragedy" || t == "comedy"

/-- The amount the selected billing strategy computes for genre tag `t` and
audience `a` (meaningful only for known tags; `0` otherwise). -/
def genre_amount (t : String) (a : Int) : Int :=
  match t with
  | "tragedy" => tragedy_amount a
  | "comedy" => comedy_amount a
  | _ => 0

/-- The credit count the selected billing strategy computes for genre tag
`t` and audience `a` (meaningful only for known tags; `0` otherwise). -/
def genre_credits (t : String) (a : Int) : Int :=
  match t with
  | "tragedy" => tragedy_credits a
  | "comedy" => comedy_credits a
  | _ => 0

/-- The genre tag a performance resolves to through the catalog (`""` when
the playID is absent). -/
def lookup_type (plays : AllPlays) (p : Performance) : String :=
  match plays p.playID with
  | some play => play.type
  | none => ""

/-- The failure, if any, that `billing_strategy` raises for one
performance. -/
def perf_failure (plays : AllPlays) (p : Performance) : Option Err :=
  match billing_strategy plays p with
  | .ok _ => none
  | .error e => some e

/-- The first lookup or dispatch failure in invoice order. -/
def first_failure (plays : AllPlays) (l : List Performance) : Option Err :=
  l.findSome? (perf_failure plays)

/-! ### Helper lemmas -/

/-- Selecting the billing strategies of a performance list, left to right,
the first failure aborting. -/
def strategies (plays : AllPlays) : List Performance → Except Err (List Billing)
  | [] => .ok []
  | p :: l => do
    let b ← billing_strategy plays p
    let bs ← strategies plays l
    pure (b :: bs)

/-- `>>=` on an `Except.ok`, by computation. -/
lemma except_bind_ok {α β : Type} (a : α) (f : α → Except Err β) :
    (Except.ok a : Except Err α) >>= f = f a := rfl

/-- `>>=` on an `Except.error`, by computation. -/
lemma except_bind_error {α β : Type} (e : Err) (f : α → Except Err β) :
    (Except.error e : Except Err α) >>= f = .error e := rfl

/-- The `reduce` loop of `calculate`, reshaped: folding the step function
over the performances equals selecting all billing strategies and then
appending all statement lines and summing all credits. -/
lemma foldlM_billing (plays : AllPlays) :
    ∀ (l : List Performance) (acc : List StatementLine × Int),
      (l.foldlM (fun (total : List StatementLine × Int) perf => do
          let strategy ← billing_strategy plays perf
          pure (total.1 ++ [strategy.statement_line], total.2 + strategy.credits))
        acc)
      = (strategies plays l).map
          (fun bs => (acc.1 ++ bs.map Billing.statement_line,
                      acc.2 + (bs.map Billing.credits).sum)) := by
  intro l
  induction l with
  | nil => intro acc; simp [strategies, Except.map, pure, Except.pure]
  | cons p l ih =>
    intro acc
    rw [List.foldlM_cons]
    cases h : billing_strategy plays p with
    | error e => simp [strategies, h, except_bind_error, Except.map]
    | ok b =>
      simp only [h, except_bind_ok, pure_bind]
      rw [ih]
      simp only [strategies, h, except_bind_ok]
      cases h2 : strategies plays l with
      | error e => simp [Except.map, except_bind_error]
      | ok bs =>
        simp [Except.map, except_bind_ok, add_assoc, pure, Except.pure]

/-- `calculate` in terms of `strategies`: select all billing strategies
(first failure aborting), then build the statement from their lines and
credits. -/
lemma calculate_eq (inv : Invoice) (plays : AllPlays) :
    calculate inv plays
      = (strategies plays inv.performances).map
          (fun bs => ⟨inv.customer, bs.map Billing.statement_line,
                      (bs.map Billing.credits).sum⟩) := by
  unfold calculate
  rw [foldlM_billing]
  cases h : strategies plays inv.performances <;>
    simp [h, Except.map, Except.bind, bind, pure, Except.pure]

/-- A resolvable performance with a known genre tag yields a strategy whose
line and credits are the selected genre rule applied to its audience. -/
lemma billing_strategy_ok {plays : AllPlays} {p : Performance} {play : Play}
    (h : plays p.playID = some play) (hk : known_genre play.type = true) :
    ∃ b, billing_strategy plays p = .ok b
      ∧ b.statement_line = ⟨play.name, genre_amount play.type p.audience, p.audience⟩
      ∧ b.credits = genre_credits play.type p.audience := by
  have hk2 : play.type = "tragedy" ∨ play.type = "comedy" := by
    simpa [known_genre] using hk
  obtain ⟨name, ty⟩ := play
  rcases hk2 with h1 | h1 <;> simp only at h1 <;> subst h1
  · exact ⟨.tragedy ⟨name, "tragedy"⟩ p, by simp [billing_strategy, h],
      by simp [Billing.statement_line, Billing.name, Billing.play, Billing.audience,
        Billing.perf, Billing.amount, genre_amount],
      by simp [Billing.credits, genre_credits]⟩
  · exact ⟨.comedy ⟨name, "comedy"⟩ p, by simp [billing_strategy, h],
      by simp [Billing.statement_line, Billing.name, Billing.play, Billing.audience,
        Billing.perf, Billing.amount, genre_amount],
      by simp [Billing.credits, genre_credits]⟩

/-- When every performance resolves to a play with a known genre tag,
strategy selection succeeds, one strategy per performance in order, each
line being the selected genre rule applied to that performance, and the
credits being the genre rule credits performance by performance. -/
lemma strategies_ok (plays : AllPlays) :
    ∀ l : List Performance,
      (∀ p ∈ l, ∃ play, plays p.playID = some play ∧ known_genre play.type = true) →
      ∃ bs, strategies plays l = .ok bs ∧ bs.length = l.length ∧
        (∀ (i : Nat) (hi : i < l.length) (hb : i < bs.length),
          ∃ play, plays (l.get ⟨i, hi⟩).playID = some play ∧
            (bs.get ⟨i, hb⟩).statement_line
              = ⟨play.name, genre_amount play.type (l.get ⟨i, hi⟩).audience,
                 (l.get ⟨i, hi⟩).audience⟩) ∧
        bs.map Billing.credits
          = l.map (fun p => genre_credits (lookup_type plays p) p.audience) := by
  intro l
  induction l with
  | nil =>
    intro _
    exact ⟨[], rfl, rfl, fun i hi => absurd hi (by simp), by simp⟩
  | cons p l ih =>
    intro h
    obtain ⟨play, hp, hk⟩ := h p (List.mem_cons_self p l)
    obtain ⟨b, hb, hline, hcred⟩ := billing_strategy_ok hp hk
    obtain ⟨bs, hbs, hlen, hidx, hcreds⟩ := ih (fun q hq => h q (List.mem_cons_of_mem p hq))
    refine ⟨b :: bs, ?_, by simp [hlen], ?_, ?_⟩
    · simp [strategies, hb, hbs, except_bind_ok, pure, Except.pure]
    · intro i hi hbi
      match i with
      | 0 => exact ⟨play, hp, hline⟩
      | Nat.succ j =>
        exact hidx j (by simpa using hi) (by simpa using hbi)
    · have hty : lookup_type plays p = play.type := by simp [lookup_type, hp]
      simp [hcred, hcreds, hty]

/-- `strategies` fails with `e` exactly when `e` is the first lookup or
dispatch failure in invoice order. -/
lemma strategies_error_iff (plays : AllPlays) :
    ∀ (l : List Performance) (e : Err),
      strategies plays l = .error e ↔ first_failure plays l = some e := by
  intro l
  induction l with
  | nil => intro e; simp [strategies, first_failure]
  | cons p l ih =>
    intro e
    cases h : billing_strategy plays p with
    | error e0 =>
      have hpf : perf_failure plays p = some e0 := by simp [perf_failure, h]
      simp [strategies, h, except_bind_error, first_failure, List.findSome?_cons, hpf]
    | ok b =>
      have hpf : perf_failure plays p = none := by simp [perf_failure, h]
      have hff : first_failure plays (p :: l) = first_failure plays l := by
        simp [first_failure, List.findSome?_cons, hpf]
      rw [hff, ← ih e]
      cases h2 : strategies plays l with
      | error e1 => simp [strategies, h, h2, except_bind_ok, except_bind_error]
      | ok bs =>
        simp [strategies, h, h2, except_bind_ok, pure, Except.pure]

/-- A performance whose playID is absent from the catalog fails with
`UnknownPlay` of that playID. -/
lemma perf_failure_unknown_play {plays : AllPlays} {p : Performance}
    (h : plays p.playID = none) :
    perf_failure plays p = some (.UnknownPlay p.playID) := by
  simp [perf_failure, billing_strategy, h]

/-- A performance that resolves to a play with an unknown genre tag fails
with `UnknownGenre` of that tag. -/
lemma perf_failure_unknown_genre {plays : AllPlays} {p : Performance} {play : Play}
    (h : plays p.playID = some play) (hk : known_genre play.type = false) :
    perf_failure plays p = some (.UnknownGenre play.type) := by
  have hk2 : play.type ≠ "tragedy" ∧ play.type ≠ "comedy" := by
    constructor <;> intro hc <;> simp [known_genre, hc] at hk
  simp [perf_failure, billing_strategy, h, hk2.1, hk2.2]

/-- A member performance with a failure forces a first failure to exist. -/
lemma first_failure_some_of_mem {plays : AllPlays} {l : List Performance}
    {p : Performance} {e0 : Err} (hp : p ∈ l)
    (hpf : perf_failure plays p = some e0) :
    ∃ e, first_failure plays l = some e := by
  cases hff : first_failure plays l with
  | some e => exact ⟨e, rfl⟩
  | none =>
    rw [first_failure, List.findSome?_eq_none_iff] at hff
    exact absurd (hff p hp) (by simp [hpf])

/-- `calculate` surfaces the first lookup or dispatch failure unchanged. -/
lemma calculate_error_of_first_failure {inv : Invoice} {plays : AllPlays}
    {e : Err} (h : first_failure plays inv.performances = some e) :
    calculate inv plays = .error e := by
  rw [calculate_eq, (strategies_error_iff plays inv.performances e).mpr h]
  rfl

/-- Full success specification of `calculate`: when every performance
resolves to a play of known genre, the result is a statement for the
invoice's customer with one line per performance in invoice order, each
line being the resolved play's name, the genre rule amount and the
audience, and the credits being the sum of the per-performance genre rule
credits. -/
lemma calculate_ok_spec (inv : Invoice) (plays : AllPlays)
    (h : ∀ p ∈ inv.performances,
      ∃ play, plays p.playID = some play ∧ known_genre play.type = true) :
    ∃ st, calculate inv plays = .ok st
      ∧ st.customer = inv.customer
      ∧ st.statement_lines.length = inv.performances.length
      ∧ (∀ (i : Nat) (hi : i < inv.performances.length)
            (hl : i < st.statement_lines.length),
          ∃ play, plays (inv.performances.get ⟨i, hi⟩).playID = some play ∧
            st.statement_lines.get ⟨i, hl⟩
              = ⟨play.name,
                 genre_amount play.type (inv.performances.get ⟨i, hi⟩).audience,
                 (inv.performances.get ⟨i, hi⟩).audience⟩)
      ∧ st.credits
          = (inv.performances.map
              (fun p => genre_credits (lookup_type plays p) p.audience)).sum := by
  obtain ⟨bs, hbs, hlen, hidx, hcreds⟩ := strategies_ok plays inv.performances h
  refine ⟨⟨inv.customer, bs.map Billing.statement_line, (bs.map Billing.credits).sum⟩,
    ?_, rfl, by simp [hlen], ?_, ?_⟩
  · rw [calculate_eq, hbs]; rfl
  · intro i hi hl
    have hb : i < bs.length := by simpa using hl
    obtain ⟨play, hp, hline⟩ := hidx i hi hb
    refine ⟨play, hp, ?_⟩
    simpa [List.getElem_map] using hline
  · simp only [hcreds]

/-! ### Concrete inputs used by witnesses and counterexamples -/

/-- Catalog with a single tragedy, from the spec's concrete scenario. -/
def plays0 : AllPlays :=
  fun s => if s = "hamlet" then some ⟨"Hamlet", "tragedy"⟩ else none

/-- Invoice with a single 55-seat performance of that tragedy. -/
def inv0 : Invoice := ⟨"BigCo", [⟨"hamlet", 55⟩]⟩

/-! ### Claims -/

/-- C1: for every invoice and catalog in which every performance's playID
resolves to a play of a known genre, `calculate` returns a `Statement`
whose customer equals the invoice's customer, with exactly one line per
performance in invoice order (equal lengths), line `i` carrying the
resolved play's name, the genre rule's amount for performance `i`'s
audience, and that audience as seats, and whose credits equal the sum over
all performances of the genre rule's credits for that performance's
audience. -/
theorem calculate_statement_spec (inv : Invoice) (plays : AllPlays)
    (h : ∀ p ∈ inv.performances,
      ∃ play, plays p.playID = some play ∧ known_genre play.type = true) :
    ∃ st, calculate inv plays = .ok st
      ∧ st.customer = inv.customer
      ∧ st.statement_lines.length = inv.performances.length
      ∧ (∀ (i : Nat) (hi : i < inv.performances.length)
            (hl : i < st.statement_lines.length),
          ∃ play, plays (inv.performances.get ⟨i, hi⟩).playID = some play ∧
            st.statement_lines.get ⟨i, hl⟩
              = ⟨play.name,
                 genre_amount play.type (inv.performances.get ⟨i, hi⟩).audience,
                 (inv.performances.get ⟨i, hi⟩).audience⟩)
      ∧ st.credits
          = (inv.performances.map
              (fun p => genre_credits (lookup_type plays p) p.audience)).sum :=
  calculate_ok_spec inv plays h

/-- Witness for C1 at the spec's concrete tragedy scenario. -/
theorem calculate_statement_spec_witness :
    (∀ p ∈ inv0.performances,
      ∃ play, plays0 p.playID = some play ∧ known_genre play.type = true)
    ∧ (∃ st, calculate inv0 plays0 = .ok st
        ∧ st.customer = inv0.customer
        ∧ st.statement_lines.length = inv0.performances.length
        ∧ (∀ (i : Nat) (hi : i < inv0.performances.length)
              (hl : i < st.statement_lines.length),
            ∃ play, plays0 (inv0.performances.get ⟨i, hi⟩).playID = some play ∧
              st.statement_lines.get ⟨i, hl⟩
                = ⟨play.name,
                   genre_amount play.type (inv0.performances.get ⟨i, hi⟩).audience,
                   (inv0.performances.get ⟨i, hi⟩).audience⟩)
        ∧ st.credits
            = (inv0.performances.map
                (fun p => genre_credits (lookup_type plays0 p) p.audience)).sum) := by
  have h0 : ∀ p ∈ inv0.performances,
      ∃ play, plays0 p.playID = some play ∧ known_genre play.type = true := by
    intro p hp
    have hp2 : p = ⟨"hamlet", 55⟩ := by simpa [inv0] using hp
    subst hp2
    exact ⟨⟨"Hamlet", "tragedy"⟩, rfl, rfl⟩
  exact ⟨h0, calculate_statement_spec inv0 plays0 h0⟩

/-- C2: the tragedy rule charges a flat 40000 cents up to 30 seats and
1000 cents per extra seat beyond 30, and credits the seats beyond 30; at
55 seats this is 65000 cents and 25 credits. -/
theorem tragedy_rule_spec :
    (∀ a : Int, 0 ≤ a →
      (a ≤ 30 → tragedy_amount a = 40000)
      ∧ (30 < a → tragedy_amount a = 40000 + 1000 * (a - 30))
      ∧ tragedy_credits a = max (a - 30) 0)
    ∧ tragedy_amount 55 = 65000 ∧ tragedy_credits 55 = 25 := by
  refine ⟨fun a _ => ⟨fun h30 => ?_, fun h30 => ?_, rfl⟩, by decide, by decide⟩
  · simp [tragedy_amount]; omega
  · simp [tragedy_amount]; omega

/-- Witness for C2 at audience 55. -/
theorem tragedy_rule_spec_witness :
    (0 ≤ (55 : Int))
    ∧ (((55 : Int) ≤ 30 → tragedy_amount 55 = 40000)
        ∧ (30 < (55 : Int) → tragedy_amount 55 = 40000 + 1000 * (55 - 30))
        ∧ tragedy_credits 55 = max (55 - 30) 0) :=
  ⟨by decide, tragedy_rule_spec.1 55 (by decide)⟩

/-- C3: the comedy rule charges 30000 cents plus 300 per seat, plus
10000 plus 500 per seat beyond 20 when over 20 seats, and credits the
seats beyond 30 plus one credit per 5 seats; at 35 seats this is 58000
cents and 12 credits. -/
theorem comedy_rule_spec :
    (∀ a : Int, 0 ≤ a →
      (a ≤ 20 → comedy_amount a = 30000 + 300 * a)
      ∧ (20 < a → comedy_amount a = 30000 + 300 * a + (10000 + 500 * (a - 20)))
      ∧ comedy_credits a = max (a - 30) 0 + a / 5)
    ∧ comedy_amount 35 = 58000 ∧ comedy_credits 35 = 12 := by
  refine ⟨fun a _ => ⟨fun h20 => ?_, fun h20 => ?_, ?_⟩, by decide, by decide⟩
  · simp [comedy_amount]; omega
  · simp [comedy_amount]; omega
  · have h5 : Int.fdiv a 5 = a / 5 := Int.fdiv_eq_ediv a (by norm_num)
    simp [comedy_credits, base_credits, h5]

/-- Witness for C3 at audience 35. -/
theorem comedy_rule_spec_witness :
    (0 ≤ (35 : Int))
    ∧ (((35 : Int) ≤ 20 → comedy_amount 35 = 30000 + 300 * 35)
        ∧ (20 < (35 : Int) →
            comedy_amount 35 = 30000 + 300 * 35 + (10000 + 500 * (35 - 20)))
        ∧ comedy_credits 35 = max (35 - 30) 0 + 35 / 5) :=
  ⟨by decide, comedy_rule_spec.1 35 (by decide)⟩

/-- Under a fully resolvable catalog, a per-performance failure can only be
`UnknownGenre` of the resolved play's (unknown) genre tag. -/
lemma perf_failure_resolved {plays : AllPlays} {q : Performance} {play : Play}
    {e : Err} (h : plays q.playID = some play)
    (hpf : perf_failure plays q = some e) :
    e = .UnknownGenre play.type ∧ known_genre play.type = false := by
  cases hk : known_genre play.type with
  | true =>
    obtain ⟨b, hb, -, -⟩ := billing_strategy_ok h hk
    simp [perf_failure, hb] at hpf
  | false =>
    have h2 := perf_failure_unknown_genre h hk
    rw [h2] at hpf
    exact ⟨(Option.some.inj hpf).symm, rfl⟩

/-- Catalog for the unknown-genre scenarios: one play with the
unrecognized tag `"history"`. -/
def plays_hist : AllPlays :=
  fun s => if s = "henry" then some ⟨"Henry V", "history"⟩ else none

/-- Invoice whose first performance has an absent playID and whose second
resolves to the unknown-genre play. -/
def inv_c4 : Invoice := ⟨"Smallville", [⟨"ghost", 10⟩, ⟨"henry", 10⟩]⟩

/-- Invoice whose first performance resolves to the unknown-genre play and
whose second references an absent playID. -/
def inv_c5 : Invoice := ⟨"Smallville", [⟨"henry", 10⟩, ⟨"ghost", 10⟩]⟩

/-- C4 counterexample: in `inv_c4` some performance's play has the genre
tag `"history"`, which matches no known variant, yet `calculate` fails
with `UnknownPlay "ghost"` (the earlier absent playID), not with any
`UnknownGenre` error. -/
theorem unknown_genre_cex :
    (⟨"henry", 10⟩ : Performance) ∈ inv_c4.performances
    ∧ plays_hist "henry" = some ⟨"Henry V", "history"⟩
    ∧ known_genre "history" = false
    ∧ calculate inv_c4 plays_hist = .error (.UnknownPlay "ghost")
    ∧ (∀ t, Err.UnknownPlay "ghost" ≠ Err.UnknownGenre t) :=
  ⟨by simp [inv_c4], rfl, rfl, by rfl, fun t h => Err.noConfusion h⟩

/-- C4 (amended): for every invoice and catalog in which every
performance's playID resolves, if some performance's play has a genre tag
matching no known pricing-rule variant then `calculate` fails with an
`UnknownGenre` error carrying an unknown tag — no silent default to the
tragedy rule and no `Statement` produced. -/
theorem unknown_genre_spec (inv : Invoice) (plays : AllPlays)
    (hres : ∀ p ∈ inv.performances, ∃ play, plays p.playID = some play)
    (hbad : ∃ p ∈ inv.performances, ∃ play,
        plays p.playID = some play ∧ known_genre play.type = false) :
    ∃ t, calculate inv plays = .error (.UnknownGenre t)
      ∧ known_genre t = false
      ∧ ∀ st, calculate inv plays ≠ .ok st := by
  obtain ⟨p, hp, play, hpl, hkf⟩ := hbad
  have hpf := perf_failure_unknown_genre hpl hkf
  obtain ⟨e, hff⟩ := first_failure_some_of_mem hp hpf
  have herr := calculate_error_of_first_failure hff
  obtain ⟨q, hq, hqf⟩ := List.exists_of_findSome?_eq_some hff
  obtain ⟨play2, hq2⟩ := hres q hq
  obtain ⟨he, hk2⟩ := perf_failure_resolved hq2 hqf
  subst he
  exact ⟨play2.type, herr, hk2, fun st hok => by
    rw [herr] at hok; exact Except.noConfusion hok⟩

/-- Witness for C4 (amended) at a one-performance invoice of the
`"history"` play. -/
theorem unknown_genre_spec_witness :
    (∀ p ∈ (⟨"C", [⟨"henry", 20⟩]⟩ : Invoice).performances,
      ∃ play, plays_hist p.playID = some play)
    ∧ (∃ p ∈ (⟨"C", [⟨"henry", 20⟩]⟩ : Invoice).performances,
        ∃ play, plays_hist p.playID = some play ∧ known_genre play.type = false)
    ∧ (∃ t, calculate ⟨"C", [⟨"henry", 20⟩]⟩ plays_hist = .error (.UnknownGenre t)
        ∧ known_genre t = false
        ∧ ∀ st, calculate ⟨"C", [⟨"henry", 20⟩]⟩ plays_hist ≠ .ok st) := by
  have h1 : ∀ p ∈ (⟨"C", [⟨"henry", 20⟩]⟩ : Invoice).performances,
      ∃ play, plays_hist p.playID = some play := by
    intro p hp
    have hp2 : p = ⟨"henry", 20⟩ := by simpa using hp
    subst hp2
    exact ⟨⟨"Henry V", "history"⟩, rfl⟩
  have h2 : ∃ p ∈ (⟨"C", [⟨"henry", 20⟩]⟩ : Invoice).performances,
      ∃ play, plays_hist p.playID = some play ∧ known_genre play.type = false :=
    ⟨⟨"henry", 20⟩, by simp, ⟨"Henry V", "history"⟩, rfl, rfl⟩
  exact ⟨h1, h2, unknown_genre_spec _ plays_hist h1 h2⟩

/-- C5 counterexample: in `inv_c5` some performance references the absent
playID `"ghost"`, yet `calculate` fails with `UnknownGenre "history"`
(the earlier dispatch failure), not with any `UnknownPlay` error. -/
theorem unknown_play_cex :
    (⟨"ghost", 10⟩ : Performance) ∈ inv_c5.performances
    ∧ plays_hist "ghost" = none
    ∧ calculate inv_c5 plays_hist = .error (.UnknownGenre "history")
    ∧ (∀ pid, Err.UnknownGenre "history" ≠ Err.UnknownPlay pid) :=
  ⟨by simp [inv_c5], rfl, by rfl, fun pid h => Err.noConfusion h⟩

/-- C5 (amended): for every invoice and catalog, if some performance
references a playID absent from the catalog then `calculate` fails and
returns no `Statement` at all, the error being the first lookup or
dispatch failure in invoice order — an `UnknownPlay` error whenever that
first failure is an absent-playID lookup. -/
theorem unknown_play_spec (inv : Invoice) (plays : AllPlays)
    (h : ∃ p ∈ inv.performances, plays p.playID = none) :
    ∃ e, calculate inv plays = .error e
      ∧ first_failure plays inv.performances = some e
      ∧ (∀ st, calculate inv plays ≠ .ok st)
      ∧ (∀ q : Performance, plays q.playID = none →
          perf_failure plays q = some (.UnknownPlay q.playID)) := by
  obtain ⟨p, hp, hn⟩ := h
  obtain ⟨e, hff⟩ := first_failure_some_of_mem hp (perf_failure_unknown_play hn)
  have herr := calculate_error_of_first_failure hff
  exact ⟨e, herr, hff,
    fun st hok => by rw [herr] at hok; exact Except.noConfusion hok,
    fun q hq => perf_failure_unknown_play hq⟩

/-- Witness for C5 (amended) at a one-performance invoice referencing an
absent playID. -/
theorem unknown_play_spec_witness :
    (∃ p ∈ (⟨"D", [⟨"macbeth", 12⟩]⟩ : Invoice).performances,
      plays0 p.playID = none)
    ∧ (∃ e, calculate ⟨"D", [⟨"macbeth", 12⟩]⟩ plays0 = .error e
        ∧ first_failure plays0 (⟨"D", [⟨"macbeth", 12⟩]⟩ : Invoice).performances
            = some e
        ∧ (∀ st, calculate ⟨"D", [⟨"macbeth", 12⟩]⟩ plays0 ≠ .ok st)
        ∧ (∀ q : Performance, plays0 q.playID = none →
            perf_failure plays0 q = some (.UnknownPlay q.playID))) := by
  have h0 : ∃ p ∈ (⟨"D", [⟨"macbeth", 12⟩]⟩ : Invoice).performances,
      plays0 p.playID = none := ⟨⟨"macbeth", 12⟩, by simp, rfl⟩
  exact ⟨h0, unknown_play_spec _ plays0 h0⟩

/-- C6: over the non-negative integers, `tragedy_amount` is at least
40000, constant (40000) up to 30 seats and strictly increasing beyond 30;
`comedy_amount` is strictly increasing everywhere; and `comedy_credits`
dominates `max (a - 30) 0`. -/
theorem pricing_monotonicity :
    (∀ a : Int, 0 ≤ a → 40000 ≤ tragedy_amount a)
    ∧ (∀ a : Int, 0 ≤ a → a ≤ 30 → tragedy_amount a = 40000)
    ∧ (∀ a b : Int, 30 < a → a < b → tragedy_amount a < tragedy_amount b)
    ∧ (∀ a b : Int, 0 ≤ a → a < b → comedy_amount a < comedy_amount b)
    ∧ (∀ a : Int, 0 ≤ a → max (a - 30) 0 ≤ comedy_credits a) := by
  refine ⟨?_, ?_, ?_, ?_, ?_⟩
  · intro a ha
    unfold tragedy_amount
    split <;> omega
  · intro a ha h30
    unfold tragedy_amount
    split <;> omega
  · intro a b ha hab
    unfold tragedy_amount
    split <;> split <;> omega
  · intro a b ha hab
    unfold comedy_amount
    split <;> split <;> omega
  · intro a ha
    have h5 : Int.fdiv a 5 = a / 5 := Int.fdiv_eq_ediv a (by norm_num)
    unfold comedy_credits base_credits
    rw [h5]
    omega

/-- Witness for C6 at concrete audiences. -/
theorem pricing_monotonicity_witness :
    ((0 ≤ (10 : Int)) ∧ 40000 ≤ tragedy_amount 10)
    ∧ ((0 ≤ (10 : Int)) ∧ (10 : Int) ≤ 30 ∧ tragedy_amount 10 = 40000)
    ∧ ((30 < (31 : Int)) ∧ (31 : Int) < 32
        ∧ tragedy_amount 31 < tragedy_amount 32)
    ∧ ((0 ≤ (7 : Int)) ∧ (7 : Int) < 8 ∧ comedy_amount 7 < comedy_amount 8)
    ∧ ((0 ≤ (35 : Int)) ∧ max ((35 : Int) - 30) 0 ≤ comedy_credits 35) :=
  ⟨⟨by decide, pricing_monotonicity.1 10 (by decide)⟩,
   ⟨by decide, by decide, pricing_monotonicity.2.1 10 (by decide) (by decide)⟩,
   ⟨by decide, by decide, pricing_monotonicity.2.2.1 31 32 (by decide) (by decide)⟩,
   ⟨by decide, by decide, pricing_monotonicity.2.2.2.1 7 8 (by decide) (by decide)⟩,
   ⟨by decide, pricing_monotonicity.2.2.2.2 35 (by decide)⟩⟩

/-- C7: a performance with audience 0 is valid input: on a one-performance
invoice whose play resolves to a known genre, `calculate` succeeds, the
line carries the genre-floor price (40000 for a tragedy, 30000 for a
comedy), the amount is non-negative, and the performance contributes 0
credits. -/
theorem audience_zero_spec (customer : String) (plays : AllPlays)
    (p : Performance) (play : Play)
    (hp : plays p.playID = some play) (ha : p.audience = 0)
    (hk : known_genre play.type = true) :
    ∃ st, calculate ⟨customer, [p]⟩ plays = .ok st
      ∧ st.statement_lines
          = [⟨play.name, if play.type = "tragedy" then 40000 else 30000, 0⟩]
      ∧ (0 : Int) ≤ (if play.type = "tragedy" then (40000 : Int) else 30000)
      ∧ st.credits = 0 := by
  obtain ⟨b, hb, hline, hcred⟩ := billing_strategy_ok hp hk
  have hca : calculate ⟨customer, [p]⟩ plays
      = .ok ⟨customer, [b.statement_line], b.credits⟩ := by
    rw [calculate_eq]
    simp [strategies, hb, except_bind_ok, pure, Except.pure, Except.map]
  have hk2 : play.type = "tragedy" ∨ play.type = "comedy" := by
    simpa [known_genre] using hk
  refine ⟨⟨customer, [b.statement_line], b.credits⟩, hca, ?_, ?_, ?_⟩
  · rcases hk2 with h1 | h1 <;>
      simp [hline, ha, h1, genre_amount, tragedy_amount, comedy_amount]
  · rcases hk2 with h1 | h1 <;> simp [h1]
  · rcases hk2 with h1 | h1 <;>
      simp [hcred, ha, h1, genre_credits, tragedy_credits, comedy_credits,
        base_credits, Int.fdiv]

/-- Witness for C7 at a zero-audience tragedy performance. -/
theorem audience_zero_spec_witness :
    (plays0 "hamlet" = some ⟨"Hamlet", "tragedy"⟩
      ∧ ((⟨"hamlet", 0⟩ : Performance).audience = 0)
      ∧ known_genre "tragedy" = true)
    ∧ (∃ st, calculate ⟨"BigCo", [⟨"hamlet", 0⟩]⟩ plays0 = .ok st
        ∧ st.statement_lines = [⟨"Hamlet", if "tragedy" = "tragedy" then 40000 else 30000, 0⟩]
        ∧ (0 : Int) ≤ (if "tragedy" = "tragedy" then (40000 : Int) else 30000)
        ∧ st.credits = 0) :=
  ⟨⟨rfl, rfl, rfl⟩,
   audience_zero_spec "BigCo" plays0 ⟨"hamlet", 0⟩ ⟨"Hamlet", "tragedy"⟩ rfl rfl rfl⟩

/-- Catalog for the negative-audience scenario: a single comedy. -/
def plays_neg : AllPlays :=
  fun s => if s = "as-like" then some ⟨"As You Like It", "comedy"⟩ else none

/-- Invoice with a single performance of audience −101. -/
def inv_neg : Invoice := ⟨"BigCo", [⟨"as-like", -101⟩]⟩

/-- C10: `calculate` never validates that audiences are non-negative: any
invoice whose performances all resolve to known genres yields a
`Statement` regardless of audience sign, a tragedy's amount stays 40000
with 0 credits for every negative audience, and at comedy audience −101
the emitted line's amount is negative (−300). -/
theorem no_audience_validation :
    (∀ a : Int, a < 0 → tragedy_amount a = 40000 ∧ tragedy_credits a = 0)
    ∧ (∀ (inv : Invoice) (plays : AllPlays),
        (∀ p ∈ inv.performances,
          ∃ play, plays p.playID = some play ∧ known_genre play.type = true) →
        ∃ st, calculate inv plays = .ok st)
    ∧ comedy_amount (-101) < 0
    ∧ calculate inv_neg plays_neg
        = .ok ⟨"BigCo", [⟨"As You Like It", -300, -101⟩], -21⟩ := by
  refine ⟨?_, ?_, by decide, by rfl⟩
  · intro a ha
    constructor
    · unfold tragedy_amount
      split <;> omega
    · unfold tragedy_credits base_credits
      omega
  · intro inv plays h
    obtain ⟨st, hst, -⟩ := calculate_ok_spec inv plays h
    exact ⟨st, hst⟩

/-- Witness for C10 at tragedy audience −5 and the concrete one-tragedy
invoice. -/
theorem no_audience_validation_witness :
    ((-5 : Int) < 0 ∧ tragedy_amount (-5) = 40000 ∧ tragedy_credits (-5) = 0)
    ∧ ((∀ p ∈ inv0.performances,
          ∃ play, plays0 p.playID = some play ∧ known_genre play.type = true)
        ∧ ∃ st, calculate inv0 plays0 = .ok st) := by
  have h0 : ∀ p ∈ inv0.performances,
      ∃ play, plays0 p.playID = some play ∧ known_genre play.type = true := by
    intro p hp
    have hp2 : p = ⟨"hamlet", 55⟩ := by simpa [inv0] using hp
    subst hp2
    exact ⟨⟨"Hamlet", "tragedy"⟩, rfl, rfl⟩
  refine ⟨⟨by decide, no_audience_validation.1 (-5) (by decide)⟩,
    h0, no_audience_validation.2.1 inv0 plays0 h0⟩

/-- The fixed part `render_as_html` emits before the table rows. -/
def html_header (customer : String) : String :=
  "<h1>Statement for " ++ customer ++ "</h1>\n" ++ "<table>\n"
    ++ "<tr><th>play</th><th>seats</th><th>cost</th></tr>\n"

/-- One table row of `render_as_html`, with its cost cell content as an
explicit argument. -/
def html_row (name : String) (seats : Int) (cost : String) : String :=
  (" <tr><td>" ++ name ++ "</td><td>" ++ toString seats ++ "</td>")
    ++ ("<td>" ++ cost ++ "</td></tr>\n")

/-- The fixed part `render_as_html` emits after the table rows. -/
def html_footer (st : Statement) : String :=
  "</table>\n"
    ++ ("<p>Amount owed is <em>" ++ format_as_dollars st.total ++ "</em></p>\n")
    ++ ("<p>You earned <em>" ++ toString st.credits ++ "</em> credits</p>")

/-- Concatenating a string list by `foldl` from a starting string equals
the starting string followed by the concatenation from the empty string. -/
lemma foldl_append_str :
    ∀ (l : List String) (r : String),
      l.foldl (fun a b => a ++ b) r = r ++ l.foldl (fun a b => a ++ b) "" := by
  intro l
  induction l with
  | nil => intro r; simp
  | cons x l ih =>
    intro r
    rw [List.foldl_cons, List.foldl_cons, ih (r ++ x), ih ("" ++ x)]
    simp [String.append_assoc]

/-- A string-building `foldl` whose step appends two pieces per element
equals the starting string followed by the concatenation of the per-element
pieces. -/
lemma foldl_two_append (A B : StatementLine → String) :
    ∀ (l : List StatementLine) (r : String),
      l.foldl (fun acc line => acc ++ A line ++ B line) r
        = r ++ (l.map (fun line => A line ++ B line)).foldl
            (fun a b => a ++ b) "" := by
  intro l
  induction l with
  | nil => intro r; simp
  | cons x l ih =>
    intro r
    rw [List.foldl_cons, List.map_cons, List.foldl_cons, ih (r ++ A x ++ B x),
      foldl_append_str _ ("" ++ (A x ++ B x))]
    simp [String.append_assoc]

/-- C9: `render_as_html` writes the formatted grand total of the whole
statement into the cost cell of every table row, rather than the row's own
amount; consequently a two-line statement with different line amounts
renders both rows with the identical cost string
`format_as_dollars st.total`. -/
theorem render_as_html_total_spec :
    (∀ st : Statement,
      render_as_html st
        = html_header st.customer
          ++ (st.statement_lines.map
              (fun line => html_row line.play_name line.seats
                (format_as_dollars st.total))).foldl (fun a b => a ++ b) ""
          ++ html_footer st)
    ∧ (∀ (customer : String) (credits : Int) (l1 l2 : StatementLine),
        render_as_html ⟨customer, [l1, l2], credits⟩
          = html_header customer
            ++ html_row l1.play_name l1.seats
                (format_as_dollars (Statement.total ⟨customer, [l1, l2], credits⟩))
            ++ html_row l2.play_name l2.seats
                (format_as_dollars (Statement.total ⟨customer, [l1, l2], credits⟩))
            ++ html_footer ⟨customer, [l1, l2], credits⟩) := by
  have main : ∀ st : Statement,
      render_as_html st
        = html_header st.customer
          ++ (st.statement_lines.map
              (fun line => html_row line.play_name line.seats
                (format_as_dollars st.total))).foldl (fun a b => a ++ b) ""
          ++ html_footer st := by
    intro st
    show
      (st.statement_lines.foldl
        (fun r line =>
          r ++ (" <tr><td>" ++ line.play_name ++ "</td><td>"
            ++ toString line.seats ++ "</td>")
            ++ ("<td>" ++ format_as_dollars st.total ++ "</td></tr>\n"))
        ("<h1>Statement for " ++ st.customer ++ "</h1>\n" ++ "<table>\n"
          ++ "<tr><th>play</th><th>seats</th><th>cost</th></tr>\n"))
      ++ "</table>\n"
      ++ ("<p>Amount owed is <em>" ++ format_as_dollars st.total ++ "</em></p>\n")
      ++ ("<p>You earned <em>" ++ toString st.credits ++ "</em> credits</p>")
      = _
    rw [foldl_two_append
      (fun line => " <tr><td>" ++ line.play_name ++ "</td><td>"
        ++ toString line.seats ++ "</td>")
      (fun _ => "<td>" ++ format_as_dollars st.total ++ "</td></tr>\n")]
    simp [html_header, html_row, html_footer, String.append_assoc]
  refine ⟨main, ?_⟩
  intro customer credits l1 l2
  rw [main ⟨customer, [l1, l2], credits⟩]
  simp [String.append_assoc]

end TheatricalPlayers
